import Mathlib

/-!
Verification development for the xiaozhi-bridge repository.

The definitions below are a shallow embedding of the JavaScript sources
`auto-bridge.js` (class `AutoBridge`) and `api-bridge.js` (class `ApiBridge`).
JavaScript objects decoded from JSON are modelled by the inductive type `Json`
(numbers as exact rationals); the result of `JSON.parse` on an inbound MQTT
payload is modelled as `Option Json`, where `none` stands for a payload on
which `JSON.parse` throws.  Stateful handlers are modelled as pure functions
from the relevant instance variables to their updated values together with the
observable actions they perform (broadcasts, subscribe requests).
-/

namespace XiaozhiBridge

/-- Model of a JavaScript value decoded from JSON. -/
inductive Json where
  | null : Json
  | bool : Bool → Json
  | num : Rat → Json
  | str : String → Json
  | arr : List Json → Json
  | obj : List (String × Json) → Json

namespace Json

/-- Field lookup in an object literal; on duplicate keys the last one wins,
as in `JSON.parse`. -/
def lookupField : List (String × Json) → String → Option Json
  | [], _ => none
  | (k, v) :: rest, key =>
    match lookupField rest key with
    | some w => some w
    | none => if k == key then some v else none

/-- Model of JavaScript property access `data.k`: `none` means `undefined`
(also for access on a non-object value). -/
def getField : Json → String → Option Json
  | .obj fs, k => lookupField fs k
  | _, _ => none

/-- JavaScript truthiness of a defined value: `null`, `false`, `0` and the
empty string are falsy; objects and arrays are truthy. -/
def truthy : Json → Bool
  | .null => false
  | .bool b => b
  | .num n => n != 0
  | .str s => s != ""
  | .arr _ => true
  | .obj _ => true

/-- Model of the strict comparison `v === "s"` between a decoded value and a
string literal. -/
def isStrEq : Json → String → Bool
  | .str t, s => t == s
  | _, _ => false

end Json

/-- Truthiness of the possibly-undefined field access `data.k`
(`undefined` is falsy). -/
def fieldTruthy (d : Json) (k : String) : Bool :=
  match d.getField k with
  | some v => v.truthy
  | none => false

/-- Model of the check `data.type === "conversation_stats"` performed by the
MQTT message handler (auto-bridge.js line 299). -/
def hasMarkerType (d : Json) : Bool :=
  match d.getField "type" with
  | some v => v.isStrEq "conversation_stats"
  | none => false

/-- The `this.stats` counters of `AutoBridge` (auto-bridge.js lines 28-32). -/
structure Stats where
  mqttMessages : Nat
  websocketClients : Nat
  conversationStats : Nat
deriving Repr, DecidableEq

/-- Model of the object literal `statsMessage` built on the tolerant
forwarding path (auto-bridge.js lines 318-324): `reason` falls back to
`"unknown"` and `timestamp` to the current unix time via the JavaScript
`||` operator, which substitutes the default for any falsy value
(`undefined` included).  `now` is the value of
`Math.floor(Date.now() / 1000)`.  On this path the guard of line 315
guarantees that `session_id` and `duration` are present, so the `getD`
defaults are never reached. -/
def mkStatsMessage (data : Json) (now : Rat) : Json :=
  Json.obj [
    ("type", Json.str "conversation_stats"),
    ("session_id", (data.getField "session_id").getD Json.null),
    ("duration", (data.getField "duration").getD Json.null),
    ("reason",
      match data.getField "reason" with
      | some r => if r.truthy then r else Json.str "unknown"
      | none => Json.str "unknown"),
    ("timestamp",
      match data.getField "timestamp" with
      | some t => if t.truthy then t else Json.num now
      | none => Json.num now)
  ]

/-- Model of the `this.mqttClient.on("message", ...)` handler of
`AutoBridge.connectMQTT` (auto-bridge.js lines 268-336).  Inputs: the saved
`this.publishTopic` instance variable, the current unix time, the current
counters, the topic, and the result of `JSON.parse` on the payload (`none`
when parsing throws, in which case the `catch` block only logs).  Output:
the updated counters and the message handed to `broadcastToWebSocket`
(`none` when nothing is broadcast).  A decoded top-level `null` makes the
property access `data.type` throw inside the same `try` block; observably
that is the same as the fall-through branches, which is how it is modelled
here. -/
def handleMessage (publishTopic : Option String) (now : Rat) (s : Stats)
    (topic : String) (parsed : Option Json) : Stats × Option Json :=
  let s1 : Stats := { s with mqttMessages := s.mqttMessages + 1 }
  let isDevicePublish : Bool := publishTopic == some topic
  match parsed with
  | none => (s1, none)
  | some data =>
    if hasMarkerType data then
      ({ s1 with conversationStats := s1.conversationStats + 1 }, some data)
    else
      if isDevicePublish then
        if (data.getField "duration").isSome && fieldTruthy data "session_id" then
          (s1, some (mkStatsMessage data now))
        else
          (s1, none)
      else
        (s1, none)

/-- Device configuration as assembled by `AutoBridge.fetchDeviceConfig`
(auto-bridge.js lines 80-85): the `mqtt` object of the OTA response spread
together with the `deviceId` passed by the caller.  String-valued fields
that may be missing from the OTA response are `Option String`. -/
structure DeviceConfig where
  deviceId : String
  client_id : Option String
  endpoint : String
  username : String
  password : String
  publish_topic : Option String
deriving Repr, DecidableEq

/-- JavaScript truthiness of a possibly-missing string field: `undefined`
and the empty string are falsy. -/
def strKnown : Option String → Bool
  | some s => s != ""
  | none => false

/-- The derived per-device inbox topic
`devices/p2p/[deviceId with every colon replaced by an underscore]`
(auto-bridge.js line 173). -/
def mkDeviceP2PTopic (deviceId : String) : String :=
  "devices/p2p/" ++ (deviceId.replace ":" "_")

/-- Model of the topic list requested by `doSubscribe` inside
`AutoBridge.connectMQTT` (auto-bridge.js lines 164-219): the publish topic
of the device when truthy, the derived per-device topic when `deviceId` is
truthy, a fallback wildcard when neither is, and always additionally the
catch-all diagnostic topic `#`. -/
def doSubscribeTopics (publishTopic : Option String) (deviceId : Option String)
    (client_id : Option String) : List String :=
  let base : List String :=
    (if strKnown publishTopic then [publishTopic.getD ""] else []) ++
    (if strKnown deviceId then [mkDeviceP2PTopic (deviceId.getD "")] else [])
  let chosen : List String :=
    if base.isEmpty then
      if strKnown client_id then ["xiaozhi/" ++ client_id.getD "" ++ "/#"]
      else ["xiaozhi/+/publish"]
    else base
  chosen ++ ["#"]

/-- The instance variables of `AutoBridge` relevant to connection handling:
whether `this.mqttClient` is non-null, whether it reports `connected`, the
saved `this.publishTopic`, and the `this.deviceConfigs` map (modelled as an
association list in insertion order, as a JavaScript `Map`). -/
structure BridgeState where
  mqttClientPresent : Bool
  mqttConnected : Bool
  publishTopic : Option String
  deviceConfigs : List (String × DeviceConfig)
deriving Repr, DecidableEq

/-- The state of a fresh `AutoBridge` instance (constructor,
auto-bridge.js lines 21-42). -/
def initialBridgeState : BridgeState :=
  { mqttClientPresent := false
    mqttConnected := false
    publishTopic := none
    deviceConfigs := [] }

/-- Observable effects of one `addDevice` / `connectMQTT` call: the updated
instance variables, whether `mqtt.connect` was invoked (a new physical
broker connection opened), and the topics that the `connect` handler of
that new connection will pass to `doSubscribe` once the connection is
acknowledged and the stabilization delay has elapsed. -/
structure OpEffects where
  newState : BridgeState
  openedConnection : Bool
  scheduledSubscribeTopics : List String
deriving Repr, DecidableEq

/-- Model of the synchronous part of `AutoBridge.connectMQTT`
(auto-bridge.js lines 112-161): when the client already exists and is
connected it resolves immediately and does nothing; otherwise it saves
`config.publish_topic` into `this.publishTopic`, calls `mqtt.connect`, and
registers a `connect` handler that will subscribe the `doSubscribe` topics
captured from this `config`. -/
def connectMQTT (s : BridgeState) (cfg : DeviceConfig) : OpEffects :=
  if s.mqttClientPresent && s.mqttConnected then
    { newState := s, openedConnection := false, scheduledSubscribeTopics := [] }
  else
    { newState :=
        { s with
          mqttClientPresent := true
          publishTopic := cfg.publish_topic }
      openedConnection := true
      scheduledSubscribeTopics :=
        doSubscribeTopics cfg.publish_topic (some cfg.deviceId) cfg.client_id }

/-- Model of `this.deviceConfigs.set(deviceId, config)`
(auto-bridge.js line 457): replace the binding when the key exists,
otherwise append. -/
def setDeviceConfig (m : List (String × DeviceConfig)) (cfg : DeviceConfig) :
    List (String × DeviceConfig) :=
  if m.any (fun p => p.1 == cfg.deviceId) then
    m.map (fun p => if p.1 == cfg.deviceId then (p.1, cfg) else p)
  else
    m ++ [(cfg.deviceId, cfg)]

/-- Model of `AutoBridge.addDevice` on the path where the configuration
fetch succeeded (auto-bridge.js lines 452-479): store the config, then
call `connectMQTT` only when there is no connected client. -/
def addDevice (s : BridgeState) (cfg : DeviceConfig) : OpEffects :=
  let s1 : BridgeState := { s with deviceConfigs := setDeviceConfig s.deviceConfigs cfg }
  if !(s1.mqttClientPresent && s1.mqttConnected) then
    connectMQTT s1 cfg
  else
    { newState := s1, openedConnection := false, scheduledSubscribeTopics := [] }

/-- Transition of the underlying mqtt.js client into the connected state
(the broker acknowledged the connection). -/
def connackSuccess (s : BridgeState) : BridgeState :=
  { s with mqttConnected := true }

/-- Transition of the underlying mqtt.js client out of the connected state
(transport closed or the caller ended the client). -/
def connectionLost (s : BridgeState) : BridgeState :=
  { s with mqttConnected := false }

/-- State of one connect attempt of `AutoBridge.connectMQTT` as seen by the
`connect` handler and its stabilization timer (auto-bridge.js lines
222-266): whether `this.mqttClient` is non-null, whether it reports
`connected`, whether the one-second `setTimeout` scheduled by the handler
is still pending, and how many times `doSubscribe` has been started. -/
structure ConnAttemptState where
  clientPresent : Bool
  clientConnected : Bool
  stabilizationPending : Bool
  subscribeAttempts : Nat
deriving Repr, DecidableEq

/-- Events acting on a connect attempt: the broker `connect` event with its
CONNACK return code, a teardown of the connection (the transport reports
not-connected, as after `mqttClient.end()`), and the firing of the pending
stabilization timer. -/
inductive ConnEvent where
  | connectAck (returnCode : Nat) : ConnEvent
  | disconnect : ConnEvent
  | stabilizationTimerFire : ConnEvent
deriving Repr, DecidableEq

/-- Step function of the connect-attempt machine, following the guards of
the source: the `connect` handler returns early on a non-zero return code
or a client that is gone or not connected, and otherwise schedules the
stabilization timer; the timer callback re-checks the client and only
calls `doSubscribe` when it is still present and connected
(auto-bridge.js lines 222-265). -/
def connStep (s : ConnAttemptState) (e : ConnEvent) : ConnAttemptState :=
  match e with
  | .connectAck rc =>
    if rc != 0 then s
    else if !(s.clientPresent && s.clientConnected) then s
    else { s with stabilizationPending := true }
  | .disconnect =>
    { s with clientConnected := false }
  | .stabilizationTimerFire =>
    if !s.stabilizationPending then s
    else if !(s.clientPresent && s.clientConnected) then
      { s with stabilizationPending := false }
    else
      { s with
        stabilizationPending := false
        subscribeAttempts := s.subscribeAttempts + 1 }

/-- A WebSocket client as seen by `AutoBridge.broadcastToWebSocket`:
its identity, its `readyState`, and whether `client.send` throws when
called on it. -/
structure WsClient where
  clientId : Nat
  readyState : Nat
  sendFails : Bool
deriving Repr, DecidableEq

/-- The `WebSocket.OPEN` ready-state constant. -/
def wsOPEN : Nat := 1

/-- The `this.wss.clients.forEach` loop of `broadcastToWebSocket`
(auto-bridge.js lines 428-440): clients that are not `OPEN` are skipped;
for open clients `send` is attempted and an exception is caught and
logged, after which the loop continues with the remaining clients.
Returns the list of (client, payload) deliveries that succeeded. -/
def broadcastLoop (msg : String) : List WsClient → List (Nat × String)
  | [] => []
  | c :: rest =>
    if c.readyState == wsOPEN then
      if c.sendFails then broadcastLoop msg rest
      else (c.clientId, msg) :: broadcastLoop msg rest
    else
      broadcastLoop msg rest

/-- Result of one `broadcastToWebSocket` call: the deliveries made and the
client registry afterwards. -/
structure BroadcastResult where
  sent : List (Nat × String)
  clientsAfter : List WsClient
deriving Repr, DecidableEq

/-- Model of `AutoBridge.broadcastToWebSocket` (auto-bridge.js lines
418-447): a no-op when the WebSocket server is not yet created; otherwise
the event is serialized once into `serialized` and the loop above runs
over the registry.  The registry itself is never modified by this method:
the `catch` block only logs, so a client whose `send` threw stays
registered. -/
def broadcastToWebSocket (wssCreated : Bool) (clients : List WsClient)
    (serialized : String) : BroadcastResult :=
  if !wssCreated then
    { sent := [], clientsAfter := clients }
  else
    { sent := broadcastLoop serialized clients, clientsAfter := clients }

/-- A push client of `ApiBridge.startWebSocketServer` as seen by its
heartbeat interval (api-bridge.js lines 886-927): the per-connection
`isAlive` flag, whether `ws.terminate()` has been called (the connection
forcibly closed, its interval cleared), whether the client is still in
the registry (`ws.terminate` fires the `close` handler, which unregisters
the client), and how many probes have been sent. -/
structure PushClient where
  isAlive : Bool
  terminated : Bool
  inRegistry : Bool
  pingsSent : Nat
deriving Repr, DecidableEq

/-- A freshly connected push client: `isAlive` starts out `true`
(api-bridge.js line 893). -/
def initPushClient : PushClient :=
  { isAlive := true, terminated := false, inRegistry := true, pingsSent := 0 }

/-- One tick of the 30-second heartbeat interval (api-bridge.js lines
896-919): when the client has not acknowledged since the previous probe
(`isAlive === false`) the interval is cleared and the client is terminated,
which unregisters it; otherwise `isAlive` is reset to `false` and a probe
is sent. -/
def pingIntervalTick (c : PushClient) : PushClient :=
  if c.terminated then c
  else if !c.isAlive then
    { c with terminated := true, inRegistry := false }
  else
    { c with isAlive := false, pingsSent := c.pingsSent + 1 }

/-- A liveness acknowledgment from the client: a WebSocket protocol `pong`
frame (api-bridge.js lines 922-927) or a JSON `ping`/`pong` message
(api-bridge.js lines 1004-1014); each sets `isAlive` back to `true`. -/
def livenessAck (c : PushClient) : PushClient :=
  if c.terminated then c else { c with isAlive := true }

/-- C3: for a device configuration whose publish topic is known and whose
credential-derived identifier is absent, topic resolution yields exactly the
publish topic verbatim followed by the configured catch-all diagnostic
wildcard, independently of the fallback client identifier.  Resolution is a
pure function, hence deterministic, and the publish topic comes first, as
the priority rules require. -/
theorem c3_resolve_publish_topic_only (p : String) (cid : Option String)
    (hp : p ≠ "") :
    doSubscribeTopics (some p) none cid = [p, "#"] := by
  simp [doSubscribeTopics, strKnown, hp]

/-- C3 witness: the spec example, a config with only
`publishTopic = "x/y/publish"`. -/
theorem c3_witness :
    doSubscribeTopics (some "x/y/publish") none none = ["x/y/publish", "#"] :=
  c3_resolve_publish_topic_only "x/y/publish" none (by decide)

/-- C4: when the connection is torn down during the stabilization delay
(after the broker acknowledged the connection with return code 0 but before
the timer fired), the late timer does not result in any subscribe attempt:
the guard inside the timer callback sees a client that is no longer
connected and returns. -/
theorem c4_disconnect_before_stabilization (s : ConnAttemptState)
    (hp : s.clientPresent = true) (hc : s.clientConnected = true) :
    (connStep (connStep (connStep s (.connectAck 0)) .disconnect)
        .stabilizationTimerFire).subscribeAttempts = s.subscribeAttempts := by
  simp [connStep, hp, hc]

/-- C4 witness: a concrete connect attempt with no prior subscribe
attempts. -/
theorem c4_witness :
    (connStep (connStep (connStep ⟨true, true, false, 0⟩ (.connectAck 0))
        .disconnect) .stabilizationTimerFire).subscribeAttempts
      = (⟨true, true, false, 0⟩ : ConnAttemptState).subscribeAttempts :=
  c4_disconnect_before_stabilization ⟨true, true, false, 0⟩ rfl rfl

/-- C6: a registered push client that gives no liveness acknowledgment
between one probe tick and the next is forcibly closed and unregistered at
the next tick, and not earlier: the first tick on a client whose `isAlive`
flag is set leaves it registered and only clears the flag, the second tick
with the flag still cleared terminates it and removes it from the
registry. -/
theorem c6_liveness_one_missed_cycle (c : PushClient)
    (hterm : c.terminated = false) (halive : c.isAlive = true) :
    (pingIntervalTick c).terminated = false ∧
    (pingIntervalTick c).inRegistry = c.inRegistry ∧
    (pingIntervalTick (pingIntervalTick c)).terminated = true ∧
    (pingIntervalTick (pingIntervalTick c)).inRegistry = false := by
  simp [pingIntervalTick, hterm, halive]

/-- C6 witness: a freshly connected push client that never answers. -/
theorem c6_witness :
    (pingIntervalTick initPushClient).terminated = false ∧
    (pingIntervalTick initPushClient).inRegistry = initPushClient.inRegistry ∧
    (pingIntervalTick (pingIntervalTick initPushClient)).terminated = true ∧
    (pingIntervalTick (pingIntervalTick initPushClient)).inRegistry = false :=
  c6_liveness_one_missed_cycle initPushClient rfl rfl

/-- C8: a payload on which `JSON.parse` throws yields no broadcast and
changes nothing beyond the raw-message counter; the handler is a total
function, the decode error is absorbed by the `catch` block and never
propagated upward. -/
theorem c8_parse_failure_yields_nothing (pt : Option String) (now : Rat)
    (s : Stats) (topic : String) :
    handleMessage pt now s topic none
      = ({ s with mqttMessages := s.mqttMessages + 1 }, none) := rfl

/-- A payload that carries both a `duration` field and a `session_id` field
but whose `session_id` value is the empty string, which is falsy in
JavaScript. -/
def emptySessionPayload : Json :=
  Json.obj [("session_id", Json.str ""), ("duration", Json.num 5)]

/-- C1 counterexample: the guard of the tolerant path is
`data.duration !== undefined && data.session_id`, a truthiness test, not a
presence test.  This payload lacks the marker type, arrives on the saved
publish topic and contains both a `duration` field and a `session_id`
field, yet nothing is broadcast, because its `session_id` is the falsy
empty string. -/
theorem c1_counterexample :
    hasMarkerType emptySessionPayload = false ∧
    (emptySessionPayload.getField "duration").isSome = true ∧
    (emptySessionPayload.getField "session_id").isSome = true ∧
    (handleMessage (some "device-server/a/publish") 0 ⟨0, 0, 0⟩
        "device-server/a/publish" (some emptySessionPayload)).2 = none :=
  ⟨rfl, rfl, rfl, rfl⟩

/-- C1 (amended): a payload without the marker type arriving on the topic
equal to the saved publish topic, with a `duration` field present and a
`session_id` field whose value is truthy, is still forwarded as a
telemetry event, with `reason` defaulted to `"unknown"` when absent and
`timestamp` defaulted to the current time when absent. -/
theorem c1_tolerant_forward (pt : String) (now : Rat) (s : Stats) (d : Json)
    (hmark : hasMarkerType d = false)
    (hdur : (d.getField "duration").isSome = true)
    (hsid : fieldTruthy d "session_id" = true) :
    (handleMessage (some pt) now s pt (some d)).2
      = some (mkStatsMessage d now) ∧
    (d.getField "reason" = none →
      (mkStatsMessage d now).getField "reason" = some (Json.str "unknown")) ∧
    (d.getField "timestamp" = none →
      (mkStatsMessage d now).getField "timestamp" = some (Json.num now)) := by
  refine ⟨?_, ?_, ?_⟩
  · simp [handleMessage, hmark, hdur, hsid]
  · intro h
    simp only [mkStatsMessage, h]
    rfl
  · intro h
    simp only [mkStatsMessage, h]
    rfl

/-- The tolerant malformed payload from the spec examples: marker type
absent, a numeric `duration` and a truthy `session_id`, no `reason` and no
`timestamp`. -/
def tolerantPayload : Json :=
  Json.obj [("session_id", Json.str "s2"), ("duration", Json.num 4)]

/-- C1 witness: the tolerant payload on the saved publish topic is
forwarded with `reason` defaulted to `"unknown"` and `timestamp` defaulted
to the current time. -/
theorem c1_witness :
    (handleMessage (some "device-server/a/publish") 7 ⟨0, 0, 0⟩
        "device-server/a/publish" (some tolerantPayload)).2
      = some (mkStatsMessage tolerantPayload 7) ∧
    (mkStatsMessage tolerantPayload 7).getField "reason"
      = some (Json.str "unknown") ∧
    (mkStatsMessage tolerantPayload 7).getField "timestamp"
      = some (Json.num 7) := by
  refine ⟨(c1_tolerant_forward "device-server/a/publish" 7 ⟨0, 0, 0⟩
      tolerantPayload rfl rfl rfl).1,
    (c1_tolerant_forward "device-server/a/publish" 7 ⟨0, 0, 0⟩
      tolerantPayload rfl rfl rfl).2.1 rfl,
    (c1_tolerant_forward "device-server/a/publish" 7 ⟨0, 0, 0⟩
      tolerantPayload rfl rfl rfl).2.2 rfl⟩

/-- C7: a payload that lacks the marker type and is missing its `duration`
field or its `session_id` field produces no event on any topic: nothing is
broadcast and no counter beyond the raw-message counter changes. -/
theorem c7_no_event_without_fields (pt : Option String) (now : Rat)
    (s : Stats) (topic : String) (d : Json)
    (hmark : hasMarkerType d = false)
    (hmiss : d.getField "duration" = none ∨ d.getField "session_id" = none) :
    (handleMessage pt now s topic (some d)).2 = none ∧
    (handleMessage pt now s topic (some d)).1
      = { s with mqttMessages := s.mqttMessages + 1 } := by
  have hcond : ((d.getField "duration").isSome && fieldTruthy d "session_id")
      = false := by
    rcases hmiss with h | h
    · simp [h]
    · simp [fieldTruthy, h]
  cases hb : (pt == some topic) with
  | false => simp [handleMessage, hmark, hb]
  | true => simp [handleMessage, hmark, hb, hcond]

/-- A server-to-device control payload: no marker type, no telemetry
fields. -/
def controlPayload : Json :=
  Json.obj [("type", Json.str "hello"), ("transport", Json.str "udp")]

/-- C7 witness: a control payload is dropped, with only the raw-message
counter incremented. -/
theorem c7_witness :
    (handleMessage (some "device-server/a/publish") 7 ⟨3, 1, 2⟩
        "device-server/a/publish" (some controlPayload)).2 = none ∧
    (handleMessage (some "device-server/a/publish") 7 ⟨3, 1, 2⟩
        "device-server/a/publish" (some controlPayload)).1
      = { mqttMessages := 4, websocketClients := 1, conversationStats := 2 } :=
  c7_no_event_without_fields (some "device-server/a/publish") 7 ⟨3, 1, 2⟩
    "device-server/a/publish" controlPayload rfl (Or.inl rfl)

/-- C10: the `conversationStats` counter is incremented only by payloads
carrying the marker type: for any payload without it the counter is
unchanged, even when the tolerant path broadcasts an event (so events
forwarded by the tolerant path are undercounted in the reported stats). -/
theorem c10_tolerant_path_skips_counter (pt : Option String) (now : Rat)
    (s : Stats) (topic : String) (d : Json)
    (hmark : hasMarkerType d = false) :
    (handleMessage pt now s topic (some d)).1.conversationStats
      = s.conversationStats ∧
    (pt = some topic →
      (d.getField "duration").isSome = true →
      fieldTruthy d "session_id" = true →
      (handleMessage pt now s topic (some d)).2
        = some (mkStatsMessage d now)) := by
  constructor
  · cases hb : (pt == some topic) with
    | false => simp [handleMessage, hmark, hb]
    | true =>
      cases hc : ((d.getField "duration").isSome && fieldTruthy d "session_id") with
      | false => simp [handleMessage, hmark, hb, hc]
      | true => simp [handleMessage, hmark, hb, hc]
  · intro hpt hdur hsid
    subst hpt
    simp [handleMessage, hmark, hdur, hsid]

/-- C10 witness: the tolerant payload is broadcast while the
`conversationStats` counter stays at its previous value. -/
theorem c10_witness :
    (handleMessage (some "device-server/a/publish") 7 ⟨3, 1, 2⟩
        "device-server/a/publish" (some tolerantPayload)).1.conversationStats
      = (⟨3, 1, 2⟩ : Stats).conversationStats ∧
    (handleMessage (some "device-server/a/publish") 7 ⟨3, 1, 2⟩
        "device-server/a/publish" (some tolerantPayload)).2
      = some (mkStatsMessage tolerantPayload 7) := by
  refine ⟨(c10_tolerant_path_skips_counter (some "device-server/a/publish") 7
      ⟨3, 1, 2⟩ "device-server/a/publish" tolerantPayload rfl).1,
    (c10_tolerant_path_skips_counter (some "device-server/a/publish") 7
      ⟨3, 1, 2⟩ "device-server/a/publish" tolerantPayload rfl).2 rfl rfl rfl⟩

/-- A first concrete device configuration. -/
def cfgAlpha : DeviceConfig :=
  { deviceId := "e4:b0:63:85:96:00"
    client_id := some "GID_default@@@e4_b0_63_85_96_00"
    endpoint := "mqtt.xiaozhi.example"
    username := "userA"
    password := "passA"
    publish_topic := some "device-server/a/publish" }

/-- A second concrete device configuration with a different publish
topic. -/
def cfgBeta : DeviceConfig :=
  { deviceId := "aa:bb:cc:dd:ee:ff"
    client_id := some "GID_default@@@aa_bb_cc_dd_ee_ff"
    endpoint := "mqtt.xiaozhi.example"
    username := "userB"
    password := "passB"
    publish_topic := some "device-server/b/publish" }

/-- The bridge state after the first device was added from the fresh state
and the broker acknowledged the connection. -/
def connectedWithAlpha : BridgeState :=
  connackSuccess (addDevice initialBridgeState cfgAlpha).newState

/-- C2 counterexample: adding a second device while the broker connection
is established opens no second connection, but it also issues no
subscription at all: in particular the publish topic of the new device is
not among the topics any subscribe request is scheduled for, contradicting
the claim that subscriptions for the new topics are issued immediately. -/
theorem c2_counterexample :
    connectedWithAlpha.mqttConnected = true ∧
    (addDevice connectedWithAlpha cfgBeta).openedConnection = false ∧
    (addDevice connectedWithAlpha cfgBeta).scheduledSubscribeTopics = [] ∧
    "device-server/b/publish" ∉
      (addDevice connectedWithAlpha cfgBeta).scheduledSubscribeTopics := by
  decide

/-- C2 (amended): calling `addDevice` while the broker connection is
established opens no second physical connection and stores the new device
configuration into the device map, but it issues no subscription for the
topics of the new device: `connectMQTT` is skipped entirely, so no
subscribe request is scheduled. -/
theorem c2_add_device_while_connected (s : BridgeState) (cfg : DeviceConfig)
    (hp : s.mqttClientPresent = true) (hc : s.mqttConnected = true) :
    addDevice s cfg =
      { newState := { s with deviceConfigs := setDeviceConfig s.deviceConfigs cfg }
        openedConnection := false
        scheduledSubscribeTopics := [] } := by
  simp [addDevice, hp, hc]

/-- C2 witness: the connected one-device state extended with the second
device. -/
theorem c2_witness :
    addDevice connectedWithAlpha cfgBeta =
      { newState := { connectedWithAlpha with
          deviceConfigs := setDeviceConfig connectedWithAlpha.deviceConfigs cfgBeta }
        openedConnection := false
        scheduledSubscribeTopics := [] } :=
  c2_add_device_while_connected connectedWithAlpha cfgBeta rfl rfl

/-- Helper for C5: the broadcast loop delivers the serialized message to
every open client whose `send` does not throw, no matter which other
clients throw or are closed. -/
theorem broadcastLoop_mem (msg : String) (c : WsClient) :
    ∀ clients : List WsClient, c ∈ clients → c.readyState = wsOPEN →
      c.sendFails = false → (c.clientId, msg) ∈ broadcastLoop msg clients := by
  intro clients
  induction clients with
  | nil => intro h; cases h
  | cons a rest ih =>
    intro hm hopen hok
    rcases List.mem_cons.mp hm with h | h
    · subst h
      simp [broadcastLoop, hopen, hok]
    · have hrest := ih h hopen hok
      by_cases ha : a.readyState = wsOPEN
      · by_cases hf : a.sendFails = true
        · simpa [broadcastLoop, ha, hf] using hrest
        · simp only [Bool.not_eq_true] at hf
          simp [broadcastLoop, ha, hf, hrest]
      · simpa [broadcastLoop, ha] using hrest

/-- A registered client whose socket is open but whose `send` throws. -/
def failingClient : WsClient :=
  { clientId := 1, readyState := 1, sendFails := true }

/-- A registered client whose socket is open and whose `send` succeeds. -/
def okClient : WsClient :=
  { clientId := 2, readyState := 1, sendFails := false }

/-- C5 counterexample: with a registry holding a client whose write throws
followed by a healthy client, the broadcast catches the error and still
delivers to the healthy client, but the throwing client is not dropped:
the registry after the call is unchanged and still contains it, so the
claim that the failing client is dropped is false. -/
theorem c5_counterexample :
    failingClient.sendFails = true ∧
    (broadcastToWebSocket true [failingClient, okClient] "ev").sent
      = [(2, "ev")] ∧
    failingClient ∈
      (broadcastToWebSocket true [failingClient, okClient] "ev").clientsAfter := by
  decide

/-- C5 (amended): the broadcast writes the single serialized event to every
client whose socket is currently open and whose write does not throw; a
write failure on one client is caught and does not abort delivery to any
other open client, but the failing client is only skipped, not dropped:
the client registry is unchanged by the call. -/
theorem c5_broadcast_isolation (clients : List WsClient) (msg : String)
    (c : WsClient) (hm : c ∈ clients) (hopen : c.readyState = wsOPEN)
    (hok : c.sendFails = false) :
    (c.clientId, msg) ∈ (broadcastToWebSocket true clients msg).sent ∧
    (broadcastToWebSocket true clients msg).clientsAfter = clients := by
  constructor
  · simpa [broadcastToWebSocket] using broadcastLoop_mem msg c clients hm hopen hok
  · rfl

/-- C5 witness: the healthy client receives the event although the client
before it in the registry throws, and the registry is unchanged. -/
theorem c5_witness :
    (okClient.clientId, "ev") ∈
      (broadcastToWebSocket true [failingClient, okClient] "ev").sent ∧
    (broadcastToWebSocket true [failingClient, okClient] "ev").clientsAfter
      = [failingClient, okClient] :=
  c5_broadcast_isolation [failingClient, okClient] "ev" okClient
    (by decide) rfl rfl

/-- C9: the tolerant classification path compares the inbound topic by
strict equality against the single saved `publishTopic` instance variable,
which each (proceeding) `connectMQTT` call overwrites with the publish
topic of its own configuration.  After a first device is connected, the
connection is lost, and a second device is added (triggering a second
`connectMQTT`), only messages on the publish topic of the second device
can take the tolerant path; the publish topic of the earlier device is no
longer recognized by it. -/
theorem c9_tolerant_only_latest_connect (cfg1 cfg2 : DeviceConfig)
    (t1 t2 : String) (now : Rat) (st : Stats) (d : Json)
    (h1 : cfg1.publish_topic = some t1)
    (h2 : cfg2.publish_topic = some t2)
    (hne : t1 ≠ t2)
    (hmark : hasMarkerType d = false)
    (hdur : (d.getField "duration").isSome = true)
    (hsid : fieldTruthy d "session_id" = true) :
    (addDevice initialBridgeState cfg1).newState.publishTopic = some t1 ∧
    (addDevice (connectionLost (connackSuccess
        (addDevice initialBridgeState cfg1).newState)) cfg2).newState.publishTopic
      = some t2 ∧
    (handleMessage (addDevice (connectionLost (connackSuccess
        (addDevice initialBridgeState cfg1).newState)) cfg2).newState.publishTopic
        now st t1 (some d)).2 = none ∧
    (handleMessage (addDevice (connectionLost (connackSuccess
        (addDevice initialBridgeState cfg1).newState)) cfg2).newState.publishTopic
        now st t2 (some d)).2 = some (mkStatsMessage d now) := by
  have hne2 : t2 ≠ t1 := fun h => hne h.symm
  have hs1 : (addDevice initialBridgeState cfg1).newState.publishTopic
      = some t1 := by
    simp [addDevice, connectMQTT, initialBridgeState, setDeviceConfig, h1]
  have hs2 : (addDevice (connectionLost (connackSuccess
      (addDevice initialBridgeState cfg1).newState)) cfg2).newState.publishTopic
      = some t2 := by
    simp [addDevice, connectMQTT, initialBridgeState, setDeviceConfig,
      connackSuccess, connectionLost, h1, h2]
  refine ⟨hs1, hs2, ?_, ?_⟩
  · rw [hs2]
    simp [handleMessage, hmark, hne2]
  · rw [hs2]
    simp [handleMessage, hmark, hdur, hsid]

/-- C9 witness: two concrete devices added across a connection loss; the
tolerant payload is forwarded on the publish topic of the second device
and dropped on the publish topic of the first. -/
theorem c9_witness :
    (addDevice initialBridgeState cfgAlpha).newState.publishTopic
      = some "device-server/a/publish" ∧
    (addDevice (connectionLost (connackSuccess
        (addDevice initialBridgeState cfgAlpha).newState))
        cfgBeta).newState.publishTopic = some "device-server/b/publish" ∧
    (handleMessage (addDevice (connectionLost (connackSuccess
        (addDevice initialBridgeState cfgAlpha).newState))
        cfgBeta).newState.publishTopic 7 ⟨0, 0, 0⟩
        "device-server/a/publish" (some tolerantPayload)).2 = none ∧
    (handleMessage (addDevice (connectionLost (connackSuccess
        (addDevice initialBridgeState cfgAlpha).newState))
        cfgBeta).newState.publishTopic 7 ⟨0, 0, 0⟩
        "device-server/b/publish" (some tolerantPayload)).2
      = some (mkStatsMessage tolerantPayload 7) :=
  c9_tolerant_only_latest_connect cfgAlpha cfgBeta
    "device-server/a/publish" "device-server/b/publish" 7 ⟨0, 0, 0⟩
    tolerantPayload rfl rfl (by decide) rfl rfl rfl

end XiaozhiBridge
